import Mathlib

/-!
Verification of the typed dispatch layer of the typed-paths repository.

Paths are raw byte sequences, modelled as lists of natural numbers (one
entry per byte; byte 92 is the backslash separator, byte 58 the colon,
byte 47 the forward slash).  The dispatch layer in `src/typed/non_utf8.rs`,
`src/typed/non_utf8/components/component.rs` and `src/native.rs` is
embedded directly; the two underlying path engines (Unix, Windows) are
external collaborators per the spec and are modelled from the spec's
contract where their internals are needed.
-/

namespace TypedPaths

/-- A path byte. The code stores u8 values but performs no arithmetic on
them, so plain naturals are a faithful carrier. -/
abbrev Byte := Nat

/-- Modelled from the spec: the Unix engine's borrowed path type, a
reference to a byte range (engine internals are out of scope; the spec
only requires a byte-slice-backed borrowed Path type). -/
structure UnixPath where
  inner : List Byte
deriving DecidableEq

/-- Modelled from the spec: the Windows engine's borrowed path type, a
reference to a byte range. -/
structure WindowsPath where
  inner : List Byte
deriving DecidableEq

/-- Modelled from the spec: the Unix engine's owned path type, an owned
byte buffer. -/
structure UnixPathBuf where
  inner : List Byte
deriving DecidableEq

/-- Modelled from the spec: the Windows engine's owned path type, an owned
byte buffer. -/
structure WindowsPathBuf where
  inner : List Byte
deriving DecidableEq

/-- Wraps a byte slice as a borrowed Unix path (engine constructor). -/
def UnixPath.new (s : List Byte) : UnixPath := ⟨s⟩

/-- Wraps a byte slice as a borrowed Windows path (engine constructor). -/
def WindowsPath.new (s : List Byte) : WindowsPath := ⟨s⟩

/-- Modelled from the spec: the engine copies a borrowed path into an
owned buffer; the bytes are reproduced exactly. -/
def UnixPath.to_path_buf (p : UnixPath) : UnixPathBuf := ⟨p.inner⟩

/-- Modelled from the spec: the engine copies a borrowed path into an
owned buffer; the bytes are reproduced exactly. -/
def WindowsPath.to_path_buf (p : WindowsPath) : WindowsPathBuf := ⟨p.inner⟩

/-- Modelled from the spec: borrowed view of an owned engine buffer. -/
def UnixPathBuf.as_path (p : UnixPathBuf) : UnixPath := ⟨p.inner⟩

/-- Modelled from the spec: borrowed view of an owned engine buffer. -/
def WindowsPathBuf.as_path (p : WindowsPathBuf) : WindowsPath := ⟨p.inner⟩

/-- Modelled from the spec: raw bytes of an owned engine buffer. -/
def UnixPathBuf.as_bytes (p : UnixPathBuf) : List Byte := p.inner

/-- Modelled from the spec: raw bytes of an owned engine buffer. -/
def WindowsPathBuf.as_bytes (p : WindowsPathBuf) : List Byte := p.inner

/-- Modelled from the spec: `From<Vec<u8>>` on the engine buffer is an
ownership transfer of the byte vector (no copy, bytes unchanged). -/
def UnixPathBuf.from_vec (s : List Byte) : UnixPathBuf := ⟨s⟩

/-- Modelled from the spec: `From<Vec<u8>>` on the engine buffer is an
ownership transfer of the byte vector (no copy, bytes unchanged). -/
def WindowsPathBuf.from_vec (s : List Byte) : WindowsPathBuf := ⟨s⟩

/-- Tests whether a byte is an ASCII letter (used by the drive-letter
rule of the Windows prefix grammar). -/
def isAsciiLetter (b : Byte) : Bool :=
  (65 ≤ b && b ≤ 90) || (97 ≤ b && b ≤ 122)

/-- Modelled from the spec: the Windows engine's boolean query reporting
whether a parsed path carries a recognized prefix token (drive letter
such as `C:`, or a UNC share / device namespace, which begin with two
backslashes).  The engine's prefix parser is an external collaborator;
only this boolean is required by the classification rule. -/
def WindowsPath.componentsHasPrefixToken (p : WindowsPath) : Bool :=
  match p.inner with
  | a :: 58 :: _ => isAsciiLetter a
  | 92 :: 92 :: _ => true
  | _ => false

/-- `TypedPath` from src/typed/non_utf8.rs: a borrowed path tagged as
exactly one of Unix or Windows. -/
inductive TypedPath where
  | Unix (path : UnixPath)
  | Windows (path : WindowsPath)
deriving DecidableEq

/-- `TypedPath::new`: parse with the Windows grammar; if it reports a
recognized prefix or the first byte is a backslash, the path is Windows,
otherwise Unix. -/
def TypedPath.new (s : List Byte) : TypedPath :=
  if (WindowsPath.new s).componentsHasPrefixToken || s.head? == some 92 then
    .Windows (WindowsPath.new s)
  else
    .Unix (UnixPath.new s)

/-- `TypedPath::is_unix`. -/
def TypedPath.is_unix : TypedPath → Bool
  | .Unix _ => true
  | _ => false

/-- `TypedPath::is_windows`. -/
def TypedPath.is_windows : TypedPath → Bool
  | .Windows _ => true
  | _ => false

/-- `TypedPathBuf` from src/typed/non_utf8.rs: an owned path buffer
tagged as exactly one of Unix or Windows. -/
inductive TypedPathBuf where
  | Unix (path : UnixPathBuf)
  | Windows (path : WindowsPathBuf)
deriving DecidableEq

/-- `TypedPath::to_path_buf`: converts into the owned form, preserving
the variant. -/
def TypedPath.to_path_buf : TypedPath → TypedPathBuf
  | .Unix path => .Unix path.to_path_buf
  | .Windows path => .Windows path.to_path_buf

/-- `TryAsRef<UnixPath> for TypedPath`. -/
def TypedPath.try_as_ref_unix : TypedPath → Option UnixPath
  | .Unix path => some path
  | _ => none

/-- `TryAsRef<WindowsPath> for TypedPath`. -/
def TypedPath.try_as_ref_windows : TypedPath → Option WindowsPath
  | .Windows path => some path
  | _ => none

/-- `TypedPathBuf::is_unix`. -/
def TypedPathBuf.is_unix : TypedPathBuf → Bool
  | .Unix _ => true
  | _ => false

/-- `TypedPathBuf::is_windows`. -/
def TypedPathBuf.is_windows : TypedPathBuf → Bool
  | .Windows _ => true
  | _ => false

/-- `TypedPathBuf::as_path`: borrowed view, preserving the variant. -/
def TypedPathBuf.as_path : TypedPathBuf → TypedPath
  | .Unix path => .Unix path.as_path
  | .Windows path => .Windows path.as_path

/-- Raw bytes of a typed owned buffer, forwarding to the active
variant's engine buffer. -/
def TypedPathBuf.as_bytes : TypedPathBuf → List Byte
  | .Unix path => path.as_bytes
  | .Windows path => path.as_bytes

/-- `From<&[u8]> for TypedPathBuf`: classify, then copy into the owned
form of the chosen variant. -/
def TypedPathBuf.from_slice (s : List Byte) : TypedPathBuf :=
  (TypedPath.new s).to_path_buf

/-- `From<Vec<u8>> for TypedPathBuf`: classify using a typed path over
the buffer's bytes, then hand the buffer itself to the chosen variant. -/
def TypedPathBuf.from_vec (s : List Byte) : TypedPathBuf :=
  match TypedPath.new s with
  | .Unix _ => .Unix (UnixPathBuf.from_vec s)
  | .Windows _ => .Windows (WindowsPathBuf.from_vec s)

/-- `TryFrom<TypedPathBuf> for UnixPathBuf`: unwrap the Unix variant, or
return the original value as the error. -/
def UnixPathBuf.try_from (path : TypedPathBuf) : Except TypedPathBuf UnixPathBuf :=
  match path with
  | .Unix path => .ok path
  | path => .error path

/-- `TryFrom<TypedPathBuf> for WindowsPathBuf`: unwrap the Windows
variant, or return the original value as the error. -/
def WindowsPathBuf.try_from (path : TypedPathBuf) : Except TypedPathBuf WindowsPathBuf :=
  match path with
  | .Windows path => .ok path
  | path => .error path

/-- The host's standard `PathBuf`, kept abstract up to its byte content;
its construction rules belong to the standard library, not this layer. -/
structure StdPathBuf where
  inner : List Byte
deriving DecidableEq

/-- `TryFrom<TypedPathBuf> for PathBuf` as compiled on a Unix host: the
`#[cfg(unix)]` arm converts the Unix variant through the engine's own
fallible conversion `conv`, wrapping a failed engine conversion back
with `map_err(TypedPathBuf::Unix)`; every other variant is returned
intact as the error.  The engine conversion is left as a parameter
because it belongs to the external engine. -/
def tryIntoStd_unixBuild (conv : UnixPathBuf → Except UnixPathBuf StdPathBuf) :
    TypedPathBuf → Except TypedPathBuf StdPathBuf
  | .Unix path =>
    match conv path with
    | .ok r => .ok r
    | .error e => .error (.Unix e)
  | path => .error path

/-- `TryFrom<TypedPathBuf> for PathBuf` as compiled on a Windows host:
mirror image of the Unix build. -/
def tryIntoStd_windowsBuild (conv : WindowsPathBuf → Except WindowsPathBuf StdPathBuf) :
    TypedPathBuf → Except TypedPathBuf StdPathBuf
  | .Windows path =>
    match conv path with
    | .ok r => .ok r
    | .error e => .error (.Windows e)
  | path => .error path

/-- Modelled from the spec: `TypedPathBuf::from_unix` tags an owned copy
of a Unix engine path with the Unix variant. -/
def TypedPathBuf.from_unix (p : UnixPath) : TypedPathBuf :=
  .Unix p.to_path_buf

/-- Modelled from the spec: `TypedPathBuf::from_windows` tags an owned
copy of a Windows engine path with the Windows variant. -/
def TypedPathBuf.from_windows (p : WindowsPath) : TypedPathBuf :=
  .Windows p.to_path_buf

/-- `NativePath::to_typed_path` on a build whose native grammar is Unix
(src/native.rs, `#[cfg(unix)]`): tag directly, no classification. -/
def UnixPath.to_typed_path (p : UnixPath) : TypedPath :=
  .Unix p

/-- `NativePath::to_typed_path_buf` on a Unix build: tag directly. -/
def UnixPath.to_typed_path_buf (p : UnixPath) : TypedPathBuf :=
  TypedPathBuf.from_unix p

/-- `NativePath::to_typed_path` on a build whose native grammar is
Windows (src/native.rs, `#[cfg(windows)]`): tag directly. -/
def WindowsPath.to_typed_path (p : WindowsPath) : TypedPath :=
  .Windows p

/-- `NativePath::to_typed_path_buf` on a Windows build: tag directly. -/
def WindowsPath.to_typed_path_buf (p : WindowsPath) : TypedPathBuf :=
  TypedPathBuf.from_windows p

/-- Modelled from the spec: the Unix engine's component type — a root
marker, current-directory marker, parent-directory marker, or named
segment. -/
inductive UnixComponent where
  | RootDir
  | CurDir
  | ParentDir
  | Normal (bytes : List Byte)
deriving DecidableEq

/-- Modelled from the spec: the Windows engine's component type — the
same four roles plus the engine-specific prefix-token role. -/
inductive WindowsComponent where
  | PrefixToken (raw : List Byte)
  | RootDir
  | CurDir
  | ParentDir
  | Normal (bytes : List Byte)
deriving DecidableEq

/-- Modelled from the spec: raw bytes of a Unix engine component (root
is the separator, current is one dot, parent two dots, a named segment
its own bytes). -/
def UnixComponent.as_bytes : UnixComponent → List Byte
  | .RootDir => [47]
  | .CurDir => [46]
  | .ParentDir => [46, 46]
  | .Normal bytes => bytes

/-- Modelled from the spec: byte length of a Unix engine component. -/
def UnixComponent.len (c : UnixComponent) : Nat := c.as_bytes.length

/-- Modelled from the spec: root-marker role test on a Unix component. -/
def UnixComponent.is_root : UnixComponent → Bool
  | .RootDir => true
  | _ => false

/-- Modelled from the spec: named-segment role test on a Unix component. -/
def UnixComponent.is_normal : UnixComponent → Bool
  | .Normal _ => true
  | _ => false

/-- Modelled from the spec: parent-directory role test on a Unix
component. -/
def UnixComponent.is_parent : UnixComponent → Bool
  | .ParentDir => true
  | _ => false

/-- Modelled from the spec: current-directory role test on a Unix
component. -/
def UnixComponent.is_current : UnixComponent → Bool
  | .CurDir => true
  | _ => false

/-- Modelled from the spec: raw bytes of a Windows engine component. -/
def WindowsComponent.as_bytes : WindowsComponent → List Byte
  | .PrefixToken raw => raw
  | .RootDir => [92]
  | .CurDir => [46]
  | .ParentDir => [46, 46]
  | .Normal bytes => bytes

/-- Modelled from the spec: byte length of a Windows engine component. -/
def WindowsComponent.len (c : WindowsComponent) : Nat := c.as_bytes.length

/-- Modelled from the spec: root-marker role test on a Windows
component. -/
def WindowsComponent.is_root : WindowsComponent → Bool
  | .RootDir => true
  | _ => false

/-- Modelled from the spec: named-segment role test on a Windows
component. -/
def WindowsComponent.is_normal : WindowsComponent → Bool
  | .Normal _ => true
  | _ => false

/-- Modelled from the spec: parent-directory role test on a Windows
component. -/
def WindowsComponent.is_parent : WindowsComponent → Bool
  | .ParentDir => true
  | _ => false

/-- Modelled from the spec: current-directory role test on a Windows
component. -/
def WindowsComponent.is_current : WindowsComponent → Bool
  | .CurDir => true
  | _ => false

/-- `TypedComponent` from src/typed/non_utf8/components/component.rs: a
component tagged as exactly one of Unix or Windows. -/
inductive TypedComponent where
  | Unix (c : UnixComponent)
  | Windows (c : WindowsComponent)
deriving DecidableEq

/-- `TypedComponent::as_bytes` (the `impl_typed_fn!` forwarding macro):
forward to whichever engine component is wrapped. -/
def TypedComponent.as_bytes : TypedComponent → List Byte
  | .Unix c => c.as_bytes
  | .Windows c => c.as_bytes

/-- `TypedComponent::len`: forward to the wrapped engine component. -/
def TypedComponent.len : TypedComponent → Nat
  | .Unix c => c.len
  | .Windows c => c.len

/-- `TypedComponent::is_root`: forward to the wrapped engine component. -/
def TypedComponent.is_root : TypedComponent → Bool
  | .Unix c => c.is_root
  | .Windows c => c.is_root

/-- `TypedComponent::is_normal`: forward to the wrapped engine
component. -/
def TypedComponent.is_normal : TypedComponent → Bool
  | .Unix c => c.is_normal
  | .Windows c => c.is_normal

/-- `TypedComponent::is_parent`: forward to the wrapped engine
component. -/
def TypedComponent.is_parent : TypedComponent → Bool
  | .Unix c => c.is_parent
  | .Windows c => c.is_parent

/-- `TypedComponent::is_current`: forward to the wrapped engine
component. -/
def TypedComponent.is_current : TypedComponent → Bool
  | .Unix c => c.is_current
  | .Windows c => c.is_current

/-- `TypedComponent::is_empty`: defined in this layer as length zero. -/
def TypedComponent.is_empty (c : TypedComponent) : Bool :=
  c.len == 0

/-- `TypedComponent::to_path`: re-run classification on the component's
own raw bytes (it does not consult the variant tag). -/
def TypedComponent.to_path (c : TypedComponent) : TypedPath :=
  TypedPath.new c.as_bytes

/-- Lexicographic comparison of byte sequences, as Rust derives it for
byte slices. -/
def bytesCmp : List Byte → List Byte → Ordering
  | [], [] => .eq
  | [], _ :: _ => .lt
  | _ :: _, [] => .gt
  | a :: xs, b :: ys =>
    if a < b then .lt else if b < a then .gt else bytesCmp xs ys

/-- Declaration-order discriminant of a Unix engine component, as the
Rust derive of `Ord` uses it. -/
def UnixComponent.disc : UnixComponent → Nat
  | .RootDir => 0
  | .CurDir => 1
  | .ParentDir => 2
  | .Normal _ => 3

/-- Modelled from the spec: the derived total order on Unix engine
components (discriminant first, then payload bytes). -/
def UnixComponent.cmp : UnixComponent → UnixComponent → Ordering
  | .Normal a, .Normal b => bytesCmp a b
  | a, b =>
    if a.disc < b.disc then .lt else if b.disc < a.disc then .gt else .eq

/-- Declaration-order discriminant of a Windows engine component. -/
def WindowsComponent.disc : WindowsComponent → Nat
  | .PrefixToken _ => 0
  | .RootDir => 1
  | .CurDir => 2
  | .ParentDir => 3
  | .Normal _ => 4

/-- Modelled from the spec: the derived total order on Windows engine
components (discriminant first, then payload bytes). -/
def WindowsComponent.cmp : WindowsComponent → WindowsComponent → Ordering
  | .PrefixToken a, .PrefixToken b => bytesCmp a b
  | .Normal a, .Normal b => bytesCmp a b
  | a, b =>
    if a.disc < b.disc then .lt else if b.disc < a.disc then .gt else .eq

/-- The `derive(PartialOrd, Ord)` comparison on `TypedComponent`: the
variant tag is compared first, in declaration order (Unix before
Windows); only equal tags compare the wrapped components. -/
def TypedComponent.cmp : TypedComponent → TypedComponent → Ordering
  | .Unix a, .Unix b => a.cmp b
  | .Unix _, .Windows _ => .lt
  | .Windows _, .Unix _ => .gt
  | .Windows a, .Windows b => a.cmp b

/-- The `derive(PartialEq, Eq)` equality on `TypedComponent`: equal only
when the variant tags agree and the wrapped components are equal. -/
def TypedComponent.beq : TypedComponent → TypedComponent → Bool
  | .Unix a, .Unix b => a == b
  | .Windows a, .Windows b => a == b
  | _, _ => false

/-- C1: classification is a total function on byte sequences — for every
byte slice `s`, `TypedPath.new s` is the Windows variant exactly when the
Windows grammar reports a recognized prefix token or the first byte is
the backslash separator, it is the Unix variant otherwise (so exactly
one of the two variants holds), and the empty slice classifies as
Unix. -/
theorem classify_total_and_exact (s : List Byte) :
    ((TypedPath.new s).is_windows
        = ((WindowsPath.new s).componentsHasPrefixToken || s.head? == some 92))
    ∧ (TypedPath.new s).is_unix = !(TypedPath.new s).is_windows
    ∧ (TypedPath.new ([] : List Byte)).is_unix = true := by
  refine ⟨?_, ?_, by decide⟩ <;>
  · unfold TypedPath.new
    cases h : ((WindowsPath.new s).componentsHasPrefixToken || s.head? == some 92) <;>
      simp [h, TypedPath.is_unix, TypedPath.is_windows]

/-- C2: round trip of owned construction — building a `TypedPathBuf`
from an owned byte buffer and reading the raw bytes back yields exactly
the original buffer, and the chosen variant agrees with the
classification of the bytes, whether Unix or Windows. -/
theorem from_vec_round_trip (b : List Byte) :
    (TypedPathBuf.from_vec b).as_bytes = b
    ∧ (TypedPathBuf.from_vec b).is_unix = (TypedPath.new b).is_unix
    ∧ (TypedPathBuf.from_vec b).is_windows = (TypedPath.new b).is_windows := by
  unfold TypedPathBuf.from_vec
  cases h : TypedPath.new b <;>
    simp [TypedPathBuf.as_bytes, UnixPathBuf.from_vec, WindowsPathBuf.from_vec,
      UnixPathBuf.as_bytes, WindowsPathBuf.as_bytes,
      TypedPathBuf.is_unix, TypedPathBuf.is_windows,
      TypedPath.is_unix, TypedPath.is_windows]

/-- C3: borrowed/owned classification symmetry — for every byte slice
`b`, `TypedPath.new b` and `(TypedPathBuf.from_slice b).as_path` carry
the same variant tag, and for every `TypedPath` `p`,
`p.to_path_buf.as_path` carries the same variant tag as `p`. -/
theorem borrowed_owned_symmetry (b : List Byte) (p : TypedPath) :
    ((TypedPathBuf.from_slice b).as_path.is_unix = (TypedPath.new b).is_unix)
    ∧ ((TypedPathBuf.from_slice b).as_path.is_windows = (TypedPath.new b).is_windows)
    ∧ (p.to_path_buf.as_path.is_unix = p.is_unix)
    ∧ (p.to_path_buf.as_path.is_windows = p.is_windows) := by
  unfold TypedPathBuf.from_slice
  cases TypedPath.new b <;> cases p <;>
    simp [TypedPath.to_path_buf, TypedPathBuf.as_path,
      UnixPath.to_path_buf, WindowsPath.to_path_buf,
      UnixPathBuf.as_path, WindowsPathBuf.as_path,
      TypedPath.is_unix, TypedPath.is_windows]

/-- C4: narrowing an owned value to a specific OS's owned type is exact
and lossless — conversion to `UnixPathBuf` succeeds exactly when the
active variant is Unix (returning the wrapped buffer), and on mismatch
fails with the original `TypedPathBuf` intact; symmetrically for
`WindowsPathBuf`. -/
theorem narrowing_owned_exact_and_lossless :
    (∀ p : UnixPathBuf, UnixPathBuf.try_from (TypedPathBuf.Unix p) = Except.ok p)
    ∧ (∀ p : WindowsPathBuf,
        UnixPathBuf.try_from (TypedPathBuf.Windows p)
          = Except.error (TypedPathBuf.Windows p))
    ∧ (∀ p : WindowsPathBuf,
        WindowsPathBuf.try_from (TypedPathBuf.Windows p) = Except.ok p)
    ∧ (∀ p : UnixPathBuf,
        WindowsPathBuf.try_from (TypedPathBuf.Unix p)
          = Except.error (TypedPathBuf.Unix p))
    ∧ (∀ v : TypedPathBuf, (UnixPathBuf.try_from v).isOk = v.is_unix)
    ∧ (∀ v : TypedPathBuf, (WindowsPathBuf.try_from v).isOk = v.is_windows) := by
  refine ⟨fun p => rfl, fun p => rfl, fun p => rfl, fun p => rfl,
    fun v => ?_, fun v => ?_⟩ <;> cases v <;> rfl

/-- C5: conversion to the host's standard path type succeeds only when
the active variant matches the build's native encoding and the engine's
own conversion succeeds; a variant mismatch returns the original value
intact, and an engine-conversion failure is passed through unchanged,
wrapped only back into the matching variant tag — for any engine
conversion function, on either build. -/
theorem std_conversion_gated_and_verbatim :
    (∀ (conv : UnixPathBuf → Except UnixPathBuf StdPathBuf) (p : WindowsPathBuf),
        tryIntoStd_unixBuild conv (TypedPathBuf.Windows p)
          = Except.error (TypedPathBuf.Windows p))
    ∧ (∀ (conv : UnixPathBuf → Except UnixPathBuf StdPathBuf) (p : UnixPathBuf),
        tryIntoStd_unixBuild conv (TypedPathBuf.Unix p)
          = match conv p with
            | Except.ok r => Except.ok r
            | Except.error e => Except.error (TypedPathBuf.Unix e))
    ∧ (∀ (conv : UnixPathBuf → Except UnixPathBuf StdPathBuf) (v : TypedPathBuf),
        (tryIntoStd_unixBuild conv v).isOk = true
          ↔ ∃ p, v = TypedPathBuf.Unix p ∧ (conv p).isOk = true)
    ∧ (∀ (conv : WindowsPathBuf → Except WindowsPathBuf StdPathBuf) (p : UnixPathBuf),
        tryIntoStd_windowsBuild conv (TypedPathBuf.Unix p)
          = Except.error (TypedPathBuf.Unix p))
    ∧ (∀ (conv : WindowsPathBuf → Except WindowsPathBuf StdPathBuf) (p : WindowsPathBuf),
        tryIntoStd_windowsBuild conv (TypedPathBuf.Windows p)
          = match conv p with
            | Except.ok r => Except.ok r
            | Except.error e => Except.error (TypedPathBuf.Windows e))
    ∧ (∀ (conv : WindowsPathBuf → Except WindowsPathBuf StdPathBuf) (v : TypedPathBuf),
        (tryIntoStd_windowsBuild conv v).isOk = true
          ↔ ∃ p, v = TypedPathBuf.Windows p ∧ (conv p).isOk = true) := by
  refine ⟨fun conv p => rfl, fun conv p => rfl, fun conv v => ?_,
    fun conv p => rfl, fun conv p => rfl, fun conv v => ?_⟩
  · cases v with
    | Unix p =>
      cases h : conv p <;>
        simp [tryIntoStd_unixBuild, h, Except.isOk, Except.toBool]
    | Windows p =>
      simp [tryIntoStd_unixBuild, Except.isOk, Except.toBool]
  · cases v with
    | Unix p =>
      simp [tryIntoStd_windowsBuild, Except.isOk, Except.toBool]
    | Windows p =>
      cases h : conv p <;>
        simp [tryIntoStd_windowsBuild, h, Except.isOk, Except.toBool]

/-- C6: `TypedComponent.to_path` re-runs classification on the
component's own raw bytes and ignores the parent path's variant tag;
consequently some Windows-variant component that is a plain named
segment reclassifies as Unix. -/
theorem component_to_path_reclassifies :
    (∀ c : TypedComponent, c.to_path = TypedPath.new c.as_bytes)
    ∧ (∃ w : WindowsComponent, w.is_normal = true
        ∧ (TypedComponent.Windows w).to_path.is_unix = true) :=
  ⟨fun _ => rfl, ⟨WindowsComponent.Normal [102, 111, 111], rfl, by decide⟩⟩

/-- C7: `TypedComponent` is a pure forwarding wrapper — `as_bytes`,
`len`, `is_root`, `is_normal`, `is_parent` and `is_current` each return
exactly what the wrapped engine component returns, for both variants,
and `is_empty` holds exactly when `len` is zero. -/
theorem typed_component_pure_forwarding :
    (∀ u : UnixComponent,
        (TypedComponent.Unix u).as_bytes = u.as_bytes
        ∧ (TypedComponent.Unix u).len = u.len
        ∧ (TypedComponent.Unix u).is_root = u.is_root
        ∧ (TypedComponent.Unix u).is_normal = u.is_normal
        ∧ (TypedComponent.Unix u).is_parent = u.is_parent
        ∧ (TypedComponent.Unix u).is_current = u.is_current)
    ∧ (∀ w : WindowsComponent,
        (TypedComponent.Windows w).as_bytes = w.as_bytes
        ∧ (TypedComponent.Windows w).len = w.len
        ∧ (TypedComponent.Windows w).is_root = w.is_root
        ∧ (TypedComponent.Windows w).is_normal = w.is_normal
        ∧ (TypedComponent.Windows w).is_parent = w.is_parent
        ∧ (TypedComponent.Windows w).is_current = w.is_current)
    ∧ (∀ c : TypedComponent, c.is_empty = true ↔ c.len = 0) := by
  refine ⟨fun u => ⟨rfl, rfl, rfl, rfl, rfl, rfl⟩,
    fun w => ⟨rfl, rfl, rfl, rfl, rfl, rfl⟩, fun c => ?_⟩
  simp [TypedComponent.is_empty]

/-- C8: native-to-generic conversion tags with the statically known
native variant and never runs the classification heuristic — on a Unix
build every native path converts to Unix-tagged borrowed and owned
forms, symmetrically on a Windows build; in particular some native Unix
path whose bytes the heuristic would classify as Windows still converts
to Unix-tagged values. -/
theorem native_tags_statically :
    (∀ p : UnixPath,
        p.to_typed_path.is_unix = true ∧ p.to_typed_path_buf.is_unix = true)
    ∧ (∀ q : WindowsPath,
        q.to_typed_path.is_windows = true ∧ q.to_typed_path_buf.is_windows = true)
    ∧ (∃ p : UnixPath, (TypedPath.new p.inner).is_windows = true
        ∧ p.to_typed_path.is_unix = true
        ∧ p.to_typed_path_buf.is_unix = true) :=
  ⟨fun _ => ⟨rfl, rfl⟩, fun _ => ⟨rfl, rfl⟩,
    ⟨UnixPath.new [67, 58, 92, 120], by decide, rfl, rfl⟩⟩

/-- C9: borrowed narrowing is exact and mutually exclusive — the Unix
accessor returns `some` exactly when the path is the Unix variant, the
Windows accessor exactly when it is the Windows variant, and exactly one
of the two accessors succeeds on any typed path. -/
theorem borrowed_narrowing_exact (p : TypedPath) :
    ((p.try_as_ref_unix).isSome = p.is_unix)
    ∧ ((p.try_as_ref_windows).isSome = p.is_windows)
    ∧ ((p.try_as_ref_unix).isSome = !(p.try_as_ref_windows).isSome) := by
  cases p <;> exact ⟨rfl, rfl, rfl⟩

/-- C10: the derived total order on `TypedComponent` compares the
variant tag first — every Unix-variant component is strictly below every
Windows-variant component regardless of bytes or roles, and components
with different variant tags are never equal. -/
theorem component_order_tag_first (u : UnixComponent) (w : WindowsComponent) :
    TypedComponent.cmp (TypedComponent.Unix u) (TypedComponent.Windows w) = Ordering.lt
    ∧ TypedComponent.cmp (TypedComponent.Windows w) (TypedComponent.Unix u) = Ordering.gt
    ∧ TypedComponent.beq (TypedComponent.Unix u) (TypedComponent.Windows w) = false
    ∧ TypedComponent.beq (TypedComponent.Windows w) (TypedComponent.Unix u) = false := by
  cases u <;> cases w <;> exact ⟨rfl, rfl, rfl, rfl⟩

end TypedPaths
